import Mathlib

/-!
Verification of the HTTP client layer of the accounting frontend.

The development shallowly embeds the two abstract client base classes,
`DatabaseRecordClient` (the richer client returning result wrappers) and
`APIClient` (the simpler client returning nullable bare values), together
with the small amount of JavaScript semantics their code paths exercise:
JSON values, property access (which throws a TypeError on null and
undefined receivers), truthiness, optional chaining, nullish coalescing,
the indexed for-loop over a `results` value, and `URLSearchParams`
serialization.

Effects are made explicit: the network is a function from the request a
method builds to either a connection failure (a rejected fetch promise) or
a completed response; the session is an optional value; thrown JavaScript
exceptions are the error side of `Except`; each operation returns the list
of HTTP requests it issued alongside its outcome, so that statements about
the requests themselves can be made.
-/

set_option autoImplicit false

universe u

/-- A JSON value, as produced by `response.json()`. Numbers are modelled as
integers (no claim depends on fractional or non-finite numbers). `undefined`
is not a JSON value and never appears inside a parsed body; absent object
properties are modelled as `Option.none` at the access sites instead. -/
inductive JsonVal where
  | jnull
  | jbool (b : Bool)
  | jnum (n : Int)
  | jstr (s : String)
  | jarr (elems : List JsonVal)
  | jobj (fields : List (String × JsonVal))

/-- JavaScript exceptions that the embedded code paths can throw. -/
inductive JSError where
  /-- Property access on `null` or `undefined`, or reading `.length` of
  `undefined`. -/
  | typeError
  /-- `response.json()` on a body that is not valid JSON. -/
  | syntaxError
  /-- A rejected `fetch` promise propagating out of a method that does not
  catch it. -/
  | networkError

/-- Property lookup in an object field list. JSON parsing keeps the last
occurrence of a duplicated key, hence the `foldl`. `none` models the
property being absent, i.e. the access evaluating to `undefined`. -/
def lookupField (fields : List (String × JsonVal)) (key : String) : Option JsonVal :=
  fields.foldl (fun acc f => if f.1 = key then some f.2 else acc) none

/-- JavaScript property access `v.key`: throws a TypeError when the receiver
is `null`; yields `undefined` (here `none`) on primitives and on objects
lacking the property. The five property names the clients read (detail,
details, results, previous, next) are never built-in properties of
primitives, so the primitive case is uniformly `undefined`. -/
def jsGetField : JsonVal → String → Except JSError (Option JsonVal)
  | .jnull, _ => .error .typeError
  | .jobj fields, key => .ok (lookupField fields key)
  | _, _ => .ok none

/-- JavaScript truthiness of a value. -/
def truthyVal : JsonVal → Bool
  | .jnull => false
  | .jbool b => b
  | .jnum n => n ≠ 0
  | .jstr s => s ≠ ""
  | .jarr _ => true
  | .jobj _ => true

/-- JavaScript truthiness of a possibly-undefined value. -/
def truthy : Option JsonVal → Bool
  | none => false
  | some v => truthyVal v

/-- The test `json.details?.length > 0` of the source: optional chaining
makes the whole comparison false when `details` is `null` or `undefined`;
arrays and strings compare their length; values without a numeric `length`
property make the comparison `undefined > 0`, which is false. For plain
objects the `length` property is looked up; a non-numeric `length` is
treated as failing the comparison (numeric string coercion of exotic
`length` values is out of scope and unreachable from any claim). -/
def detailsHasEntries : Option JsonVal → Bool
  | some (.jarr elems) => elems.length > 0
  | some (.jstr s) => s.length > 0
  | some (.jobj fields) =>
    match lookupField fields "length" with
    | some (.jnum n) => 0 < n
    | _ => false
  | _ => false

/-- The read `json.details[0]` of the source, evaluated only under the guard
`detailsHasEntries`. Indexing a string yields a one-character string. For
the exotic case of a plain object carrying a numeric `length`, a missing
`"0"` property would yield `undefined`; that corner is collapsed to `null`
here (no claim reaches it, and no consumer distinguishes the two). -/
def jsIndexZero : Option JsonVal → JsonVal
  | some (.jarr elems) => elems.headD .jnull
  | some (.jstr s) => .jstr (String.singleton (s.data.headD ' '))
  | some (.jobj fields) => (lookupField fields "0").getD .jnull
  | _ => .jnull

/-- The loop `for (let index = 0; index < v.length; index++)` of the source,
collecting `v[index]`. Reading `.length` of `null` or `undefined` throws a
TypeError before the first iteration. Arrays iterate their elements,
strings their characters (as one-character strings). Numbers and booleans
have no `length` property, so the bound check `index < undefined` is false
and nothing is collected. Plain objects iterate index properties up to a
numeric `length` property when one is present (missing index properties
collapse `undefined` to `null`, as in `jsIndexZero`), and collect nothing
otherwise. -/
def jsElements : Option JsonVal → Except JSError (List JsonVal)
  | none => .error .typeError
  | some .jnull => .error .typeError
  | some (.jarr elems) => .ok elems
  | some (.jstr s) => .ok (s.data.map fun c => .jstr (String.singleton c))
  | some (.jnum _) => .ok []
  | some (.jbool _) => .ok []
  | some (.jobj fields) =>
    match lookupField fields "length" with
    | some (.jnum n) =>
      .ok ((List.range n.toNat).map fun i => (lookupField fields (toString i)).getD .jnull)
    | _ => .ok []

/-- The comparison `v != null` of the source (loose inequality): false for
`null` and for `undefined`, true for everything else. -/
def looseNeqNull : Option JsonVal → Bool
  | none => false
  | some .jnull => false
  | some _ => true

/-- Nullish coalescing `v ?? d`: the fallback is chosen when `v` is `null`
or `undefined`. -/
def nullishCoalesce (v : Option JsonVal) (d : JsonVal) : JsonVal :=
  match v with
  | none => d
  | some .jnull => d
  | some w => w

/-- A hexadecimal digit, uppercase, as used by URL percent-encoding. -/
def hexDigit (n : Nat) : Char :=
  if n < 10 then Char.ofNat (48 + n) else Char.ofNat (55 + n)

/-- Percent-encoding of one byte. -/
def percentEncodeByte (b : UInt8) : String :=
  String.mk ['%', hexDigit (b.toNat / 16), hexDigit (b.toNat % 16)]

/-- One character of `application/x-www-form-urlencoded` serialization:
space becomes `+`, ASCII alphanumerics and `*`, `-`, `.`, `_` are kept, and
every other character is percent-encoded byte by byte in UTF-8. -/
def formEncodeChar (c : Char) : String :=
  if c = ' ' then "+"
  else if c.isAlphanum ∨ c = '*' ∨ c = '-' ∨ c = '.' ∨ c = '_' then String.singleton c
  else String.join (((String.singleton c).toUTF8.toList).map percentEncodeByte)

/-- `application/x-www-form-urlencoded` serialization of a string. -/
def formEncode (s : String) : String :=
  String.join (s.data.map formEncodeChar)

/-- The string interpolation of a `URLSearchParams` object, which serializes
its pairs in insertion order using the form-urlencoded format. -/
def urlSearchParamsString (params : List (String × String)) : String :=
  String.intercalate "&" (params.map fun p => formEncode p.1 ++ "=" ++ formEncode p.2)

/-- An HTTP request as assembled by a `fetch(url, init)` call: method, URL,
header list, optional string body, and optional cache mode. -/
structure HttpRequest where
  method : String
  url : String
  headers : List (String × String)
  body : Option String
  cache : Option String

/-- A completed HTTP response, as far as the clients observe it: the status
code and the result of `response.json()` (`none` when the body does not
parse as JSON, in which case `response.json()` throws). -/
structure JSResponse where
  status : Int
  bodyJson : Option JsonVal

/-- The `ok` getter of a fetch `Response`: status in the range 200 to 299. -/
def JSResponse.ok (r : JSResponse) : Bool :=
  200 ≤ r.status ∧ r.status ≤ 299

/-- Outcome of one `fetch` call: either the promise rejects (network-level
failure, e.g. no connectivity) or a response arrives, with any status. -/
inductive NetResult where
  | failure
  | success (resp : JSResponse)

/-- A network environment: what each issued request comes back as. -/
def Network : Type := HttpRequest → NetResult

/-- The `next-auth` session as the clients read it: `session.user.token`. -/
structure SessionUser where
  token : String

/-- A user session; `getSession()` yields one of these or no session. -/
structure Session where
  user : SessionUser

/-- The `getAccessToken` method shared verbatim by both client classes: no
session logs the error "Could not get session" and yields the empty string;
otherwise the token of the session user is returned. The second component
collects the `console.error` lines emitted. -/
def getAccessToken : Option Session → String × List String
  | none => ("", ["Could not get session"])
  | some s => (s.user.token, [])

/-- Modelled from the spec: the `MultiRecordResult` model file is not under
src (only its import and factory call sites are). Section 3 describes it as
a tagged outcome type, either success with status, records, page, and the
two pagination flags, or failure with status and human-readable error
message, mutually exclusive and built by two named factory operations. The
error message carries the runtime value assigned in the client (a string in
every non-exotic run). -/
inductive MultiRecordResult (α : Type u) where
  | asSuccessResult (status : Int) (records : List α) (page : Int)
      (hasPreviousPage : Bool) (hasNextPage : Bool)
  | asErrorResult (status : Int) (errorMessage : JsonVal)

/-- Modelled from the spec: the `SingleRecordResult` model file is not under
src. Section 3 describes it as either success with status and record, or
failure with status and error message, same exclusivity discipline as
`MultiRecordResult`. -/
inductive SingleRecordResult (α : Type u) where
  | asSuccessResult (status : Int) (record : α)
  | asErrorResult (status : Int) (errorMessage : JsonVal)

/-- Modelled from the spec: the `SortBy` query file is not under src.
Section 3 describes it as a field name plus an ascending or descending
direction. -/
inductive SortDirection where
  | ascending
  | descending

/-- Modelled from the spec: a field name plus direction. -/
structure SortBy where
  field : String
  direction : SortDirection

/-- Modelled from the spec: the serialization of the direction to a string
used as the `sortDir` query parameter; the worked example of section 8 shows
`desc` for the descending direction. -/
def SortBy.getDirectionAsString (s : SortBy) : String :=
  match s.direction with
  | .ascending => "asc"
  | .descending => "desc"

/-- The abstract base class `DatabaseRecordClient` over a record type. The
configured backend domain is a constructor-time constant; `getEndpoint` and
`parse` are the two abstract members a concrete subclass supplies. The
`DatabaseRecord` bound of the type parameter provides the integer `id` read
by `put` and `delete`, and `JSON.stringify` of a record is the serialization
a subclass record admits; both are therefore parameters here. -/
structure DatabaseRecordClient (α : Type u) where
  domain : String
  getEndpoint : String
  parse : JsonVal → α
  recordId : α → Int
  stringify : α → String

namespace DatabaseRecordClient

variable {α : Type u}

/-- The error extraction shared by `fetch` and `submit`: start from the
generic fallback "Unknown error", replace it by `json.detail` when that is
truthy, else by `json.details[0]` when `json.details?.length > 0`. Property
access throws on a null body. -/
def extractErrorMessage (json : JsonVal) : Except JSError JsonVal :=
  match jsGetField json "detail" with
  | .error e => .error e
  | .ok detail =>
    if truthy detail then .ok (detail.getD .jnull)
    else
      match jsGetField json "details" with
      | .error e => .error e
      | .ok details =>
        if detailsHasEntries details then .ok (jsIndexZero details)
        else .ok (.jstr "Unknown error")

/-- The GET request built by `fetch` (lines 68 to 86 of the source): the
domain, the endpoint, and a query string of the three `URLSearchParams`
entries; one Authorization header carrying the token; no-store caching. -/
def fetchRequest (c : DatabaseRecordClient α) (session : Option Session)
    (sortBy : SortBy) (page : Int) : HttpRequest :=
  { method := "GET"
    url := c.domain ++ c.getEndpoint ++ "?" ++ urlSearchParamsString
      [("sortField", sortBy.field),
       ("sortDir", sortBy.getDirectionAsString),
       ("page", toString page)]
    headers := [("Authorization", "Token " ++ (getAccessToken session).1)]
    body := none
    cache := some "no-store" }

/-- The response handling of `fetch` (lines 87 to 112 of the source): a
rejected promise is caught and becomes a 503 failure result with the fixed
message; otherwise the body is parsed as JSON (throwing on non-JSON), a
non-200 status yields a failure result with the extracted message and the
actual status, and a 200 status parses each entry of `json.results`, then
derives the pagination flags from `json.previous != null` and
`json.next != null`. -/
def fetchResult (c : DatabaseRecordClient α) (page : Int) :
    NetResult → Except JSError (MultiRecordResult α)
  | .failure => .ok (.asErrorResult 503 (.jstr "Could not connect to the API"))
  | .success resp =>
    match resp.bodyJson with
    | none => .error .syntaxError
    | some json =>
      if resp.status ≠ 200 then
        (extractErrorMessage json).map (MultiRecordResult.asErrorResult resp.status)
      else
        match jsGetField json "results" with
        | .error e => .error e
        | .ok results =>
          match jsElements results with
          | .error e => .error e
          | .ok elems =>
            match jsGetField json "previous", jsGetField json "next" with
            | .error e, _ => .error e
            | .ok _, .error e => .error e
            | .ok previous, .ok next =>
              .ok (.asSuccessResult resp.status (elems.map c.parse) page
                (looseNeqNull previous) (looseNeqNull next))

/-- `fetch(sortBy, page)`: builds the request, issues it once against the
network, and handles the outcome. The first component is the list of
requests issued. -/
def fetch (c : DatabaseRecordClient α) (net : Network) (session : Option Session)
    (sortBy : SortBy) (page : Int) :
    List HttpRequest × Except JSError (MultiRecordResult α) :=
  ([c.fetchRequest session sortBy page],
   c.fetchResult page (net (c.fetchRequest session sortBy page)))

/-- `fetch(sortBy)` with the page parameter omitted: the TS default
parameter makes this `fetch(sortBy, 1)`. -/
def fetchNoPage (c : DatabaseRecordClient α) (net : Network)
    (session : Option Session) (sortBy : SortBy) :
    List HttpRequest × Except JSError (MultiRecordResult α) :=
  c.fetch net session sortBy 1

/-- The GET request built by `get` (lines 122 to 132 of the source). -/
def getRequest (c : DatabaseRecordClient α) (session : Option Session)
    (id : Int) : HttpRequest :=
  { method := "GET"
    url := c.domain ++ c.getEndpoint ++ toString id ++ "/"
    headers := [("Authorization", "Token " ++ (getAccessToken session).1)]
    body := none
    cache := some "no-store" }

/-- The response handling of `get` (lines 133 to 145 of the source): a
caught rejection becomes the fixed 503 failure; a non-200 status yields a
failure with `json.detail ?? "Unknown error"` (note: no `details` array
fallback here, unlike `fetch` and `submit`); a 200 status parses the whole
body as the record. -/
def getResult (c : DatabaseRecordClient α) :
    NetResult → Except JSError (SingleRecordResult α)
  | .failure => .ok (.asErrorResult 503 (.jstr "Could not connect to the API"))
  | .success resp =>
    match resp.bodyJson with
    | none => .error .syntaxError
    | some json =>
      if resp.status ≠ 200 then
        match jsGetField json "detail" with
        | .error e => .error e
        | .ok detail =>
          .ok (.asErrorResult resp.status (nullishCoalesce detail (.jstr "Unknown error")))
      else
        .ok (.asSuccessResult resp.status (c.parse json))

/-- `get(id)`: builds the request, issues it once, handles the outcome. -/
def get (c : DatabaseRecordClient α) (net : Network) (session : Option Session)
    (id : Int) : List HttpRequest × Except JSError (SingleRecordResult α) :=
  ([c.getRequest session id], c.getResult (net (c.getRequest session id)))

/-- The request built by the private `submit` helper (lines 171 to 182 of
the source): caller-supplied method and URL, JSON content type, the token
header, and the stringified record as body. -/
def submitRequest (c : DatabaseRecordClient α) (session : Option Session)
    (record : α) (url : String) (method : String) : HttpRequest :=
  { method := method
    url := url
    headers := [("Content-Type", "application/json"),
                ("Authorization", "Token " ++ (getAccessToken session).1)]
    body := some (c.stringify record)
    cache := none }

/-- The response handling of `submit` (lines 183 to 200 of the source): a
caught rejection becomes a 503 failure whose message is "Could not connect
to API" (without "the", unlike `fetch` and `get`); a status that is neither
200 nor 201 yields a failure with the shared extracted message; otherwise
the body is parsed as the record. -/
def submitResult (c : DatabaseRecordClient α) :
    NetResult → Except JSError (SingleRecordResult α)
  | .failure => .ok (.asErrorResult 503 (.jstr "Could not connect to API"))
  | .success resp =>
    match resp.bodyJson with
    | none => .error .syntaxError
    | some json =>
      if resp.status ≠ 200 ∧ resp.status ≠ 201 then
        (extractErrorMessage json).map (SingleRecordResult.asErrorResult resp.status)
      else
        .ok (.asSuccessResult resp.status (c.parse json))

/-- `submit(record, url, method)`: one request, handled as above. -/
def submit (c : DatabaseRecordClient α) (net : Network) (session : Option Session)
    (record : α) (url : String) (method : String) :
    List HttpRequest × Except JSError (SingleRecordResult α) :=
  ([c.submitRequest session record url method],
   c.submitResult (net (c.submitRequest session record url method)))

/-- `post(record)`: submit to the collection URL with method POST. -/
def post (c : DatabaseRecordClient α) (net : Network) (session : Option Session)
    (record : α) : List HttpRequest × Except JSError (SingleRecordResult α) :=
  c.submit net session record (c.domain ++ c.getEndpoint) "POST"

/-- `put(record)`: submit to the record URL (collection URL, then the record
id, then a trailing slash) with method PUT. -/
def put (c : DatabaseRecordClient α) (net : Network) (session : Option Session)
    (record : α) : List HttpRequest × Except JSError (SingleRecordResult α) :=
  c.submit net session record
    (c.domain ++ c.getEndpoint ++ toString (c.recordId record) ++ "/") "PUT"

/-- The DELETE request built by `delete` (lines 204 to 214 of the source). -/
def deleteRequest (c : DatabaseRecordClient α) (session : Option Session)
    (id : Int) : HttpRequest :=
  { method := "DELETE"
    url := c.domain ++ c.getEndpoint ++ toString id ++ "/"
    headers := [("Authorization", "Token " ++ (getAccessToken session).1)]
    body := none
    cache := none }

/-- The outcome of `delete` as the source words it: the raw response, or
null when the promise rejected. Nothing else in `delete` can throw, so the
outcome is a plain option, not an `Except`. -/
def responseOrNull : NetResult → Option JSResponse
  | .failure => none
  | .success resp => some resp

/-- `delete(id)`: one DELETE request; the raw response on any completed
request, a null sentinel when the promise rejects. -/
def delete (c : DatabaseRecordClient α) (net : Network) (session : Option Session)
    (id : Int) : List HttpRequest × Option JSResponse :=
  ([c.deleteRequest session id], responseOrNull (net (c.deleteRequest session id)))

end DatabaseRecordClient

/-- The abstract base class `APIClient` over a record type: the simpler
sibling of `DatabaseRecordClient`, same constructor-time domain and the same
two abstract members, same record bound. -/
structure APIClient (α : Type u) where
  domain : String
  getEndpoint : String
  parse : JsonVal → α
  recordId : α → Int
  stringify : α → String

namespace APIClient

variable {α : Type u}

/-- The GET request built by `APIClient.fetch` (lines 44 to 53 of the
source): the collection URL with no query string. -/
def fetchRequest (c : APIClient α) (session : Option Session) : HttpRequest :=
  { method := "GET"
    url := c.domain ++ c.getEndpoint
    headers := [("Authorization", "Token " ++ (getAccessToken session).1)]
    body := none
    cache := some "no-store" }

/-- The response handling of `APIClient.fetch` (lines 48 to 82 of the
source). There is no try/catch anywhere in this class, so a rejected fetch
promise propagates to the caller; a non-ok response, a falsy body, a truthy
`data.detail`, and a falsy `data.results` each yield the empty list after a
logged diagnostic; otherwise the entries of `data.results` are parsed. -/
def fetchResult (c : APIClient α) : NetResult → Except JSError (List α)
  | .failure => .error .networkError
  | .success resp =>
    if ¬ resp.ok then .ok []
    else
      match resp.bodyJson with
      | none => .error .syntaxError
      | some data =>
        if ¬ truthyVal data then .ok []
        else
          match jsGetField data "detail" with
          | .error e => .error e
          | .ok detail =>
            if truthy detail then .ok []
            else
              match jsGetField data "results" with
              | .error e => .error e
              | .ok results =>
                if ¬ truthy results then .ok []
                else
                  match jsElements results with
                  | .error e => .error e
                  | .ok elems => .ok (elems.map c.parse)

/-- `APIClient.fetch()`: one GET request, handled as above. -/
def fetch (c : APIClient α) (net : Network) (session : Option Session) :
    List HttpRequest × Except JSError (List α) :=
  ([c.fetchRequest session], c.fetchResult (net (c.fetchRequest session)))

/-- The GET request built by `APIClient.get` (lines 92 to 101). -/
def getRequest (c : APIClient α) (session : Option Session) (id : Int) :
    HttpRequest :=
  { method := "GET"
    url := c.domain ++ c.getEndpoint ++ toString id ++ "/"
    headers := [("Authorization", "Token " ++ (getAccessToken session).1)]
    body := none
    cache := some "no-store" }

/-- The response handling of `APIClient.get` (lines 96 to 115): null on a
non-ok response or falsy body, otherwise the parsed body; a rejected
promise and a non-JSON body still throw. -/
def getResult (c : APIClient α) : NetResult → Except JSError (Option α)
  | .failure => .error .networkError
  | .success resp =>
    if ¬ resp.ok then .ok none
    else
      match resp.bodyJson with
      | none => .error .syntaxError
      | some data =>
        if ¬ truthyVal data then .ok none
        else .ok (some (c.parse data))

/-- `APIClient.get(id)`: one GET request, handled as above. -/
def get (c : APIClient α) (net : Network) (session : Option Session) (id : Int) :
    List HttpRequest × Except JSError (Option α) :=
  ([c.getRequest session id], c.getResult (net (c.getRequest session id)))

/-- The request built by `APIClient.post` (lines 125 to 136). -/
def postRequest (c : APIClient α) (session : Option Session) (record : α) :
    HttpRequest :=
  { method := "POST"
    url := c.domain ++ c.getEndpoint
    headers := [("Content-Type", "application/json"),
                ("Authorization", "Token " ++ (getAccessToken session).1)]
    body := some (c.stringify record)
    cache := none }

/-- The response handling shared by `APIClient.post` (lines 129 to 150) and
`APIClient.put` (lines 164 to 185): null on a non-ok response or falsy
body; otherwise the RAW body value is returned, without going through
`parse`; a rejected promise and a non-JSON body throw. -/
def writeResult : NetResult → Except JSError (Option JsonVal)
  | .failure => .error .networkError
  | .success resp =>
    if ¬ resp.ok then .ok none
    else
      match resp.bodyJson with
      | none => .error .syntaxError
      | some data =>
        if ¬ truthyVal data then .ok none
        else .ok (some data)

/-- `APIClient.post(record)`: one POST request, handled as above. -/
def post (c : APIClient α) (net : Network) (session : Option Session)
    (record : α) : List HttpRequest × Except JSError (Option JsonVal) :=
  ([c.postRequest session record], writeResult (net (c.postRequest session record)))

/-- The request built by `APIClient.put` (lines 160 to 171). -/
def putRequest (c : APIClient α) (session : Option Session) (record : α) :
    HttpRequest :=
  { method := "PUT"
    url := c.domain ++ c.getEndpoint ++ toString (c.recordId record) ++ "/"
    headers := [("Content-Type", "application/json"),
                ("Authorization", "Token " ++ (getAccessToken session).1)]
    body := some (c.stringify record)
    cache := none }

/-- `APIClient.put(record)`: one PUT request, handled as above. -/
def put (c : APIClient α) (net : Network) (session : Option Session)
    (record : α) : List HttpRequest × Except JSError (Option JsonVal) :=
  ([c.putRequest session record], writeResult (net (c.putRequest session record)))

end APIClient

/-! ## Concrete fixtures for counterexamples and witnesses -/

/-- A concrete subclass instance of the richer client: the expenses
endpoint, with the identity parse over raw JSON values. -/
def expenseClient : DatabaseRecordClient JsonVal :=
  { domain := "https://api.example.com"
    getEndpoint := "/expenses/"
    parse := fun v => v
    recordId := fun _ => 7
    stringify := fun _ => "\x7b\x7d" }

/-- A concrete subclass instance of the simpler client whose parse is not
the identity, so parsed and raw bodies are distinguishable. -/
def simpleClient : APIClient JsonVal :=
  { domain := "https://api.example.com"
    getEndpoint := "/projects/"
    parse := fun _ => .jnull
    recordId := fun _ => 3
    stringify := fun _ => "\x7b\x7d" }

/-- A network with no connectivity: every fetch promise rejects. -/
def downNet : Network := fun _ => .failure

/-- A network answering every request with the given response. -/
def constNet (resp : JSResponse) : Network := fun _ => .success resp

/-- A sort order used in concrete runs, matching the worked example of the
spec. -/
def sortByDateDesc : SortBy := { field := "date", direction := .descending }

/-- The details-array part of the documented error-message precedence,
stated from the spec wording: the first entry of the `details` array when
that array is present and non-empty, else the generic fallback. -/
def specDetailsMessage (fields : List (String × JsonVal)) : JsonVal :=
  match lookupField fields "details" with
  | some (.jarr (x :: _)) => x
  | _ => .jstr "Unknown error"

/-- The documented error-message precedence over an object body of the
documented error shape, stated from the spec wording: `detail` when truthy,
else the first entry of a present non-empty `details` array, else the
generic fallback. -/
def specErrorMessage (fields : List (String × JsonVal)) : JsonVal :=
  match lookupField fields "detail" with
  | some d => if truthyVal d then d else specDetailsMessage fields
  | none => specDetailsMessage fields

/-- The error message `get` actually uses, stated independently of the
code path: `detail` unless it is null or absent, else the generic fallback;
the `details` array is never consulted. -/
def specGetErrorMessage (fields : List (String × JsonVal)) : JsonVal :=
  match lookupField fields "detail" with
  | some .jnull => .jstr "Unknown error"
  | some d => d
  | none => .jstr "Unknown error"

/-! ## C1: the connectivity failure result -/

/-- C1 counterexample: with the network down, `fetch` returns the 503
failure carrying the message "Could not connect to the API", while `put`
returns the 503 failure carrying "Could not connect to API". The two
messages are different strings, so the four operations do not share one
fixed connectivity message as the claim states. -/
theorem fetch_and_put_connectivity_messages_differ :
    (expenseClient.fetch downNet none sortByDateDesc 1).2
      = .ok (.asErrorResult 503 (.jstr "Could not connect to the API"))
    ∧ (expenseClient.put downNet none (.jobj [])).2
      = .ok (.asErrorResult 503 (.jstr "Could not connect to API"))
    ∧ "Could not connect to the API" ≠ "Could not connect to API" :=
  ⟨rfl, rfl, by decide⟩

/-- C1 (amended): every network-level failure in `fetch`, `get`, `post`, or
`put` yields a failure result with status 503 and a fixed message, but the
message is "Could not connect to the API" for `fetch` and `get` and
"Could not connect to API" for `post` and `put`. -/
theorem network_failure_yields_fixed_503_failure {α : Type u}
    (c : DatabaseRecordClient α) (net : Network) (session : Option Session)
    (sortBy : SortBy) (page : Int) (id : Int) (record : α)
    (hdown : ∀ r, net r = .failure) :
    (c.fetch net session sortBy page).2
      = .ok (.asErrorResult 503 (.jstr "Could not connect to the API"))
    ∧ (c.get net session id).2
      = .ok (.asErrorResult 503 (.jstr "Could not connect to the API"))
    ∧ (c.post net session record).2
      = .ok (.asErrorResult 503 (.jstr "Could not connect to API"))
    ∧ (c.put net session record).2
      = .ok (.asErrorResult 503 (.jstr "Could not connect to API")) := by
  refine ⟨?_, ?_, ?_, ?_⟩ <;>
    simp [DatabaseRecordClient.fetch, DatabaseRecordClient.get,
      DatabaseRecordClient.post, DatabaseRecordClient.put,
      DatabaseRecordClient.submit, DatabaseRecordClient.fetchResult,
      DatabaseRecordClient.getResult, DatabaseRecordClient.submitResult, hdown]

/-- C1 witness: the amended statement evaluated on the expenses client under
the downed network. -/
theorem network_failure_yields_fixed_503_failure_witness :
    (expenseClient.fetch downNet none sortByDateDesc 1).2
      = .ok (.asErrorResult 503 (.jstr "Could not connect to the API"))
    ∧ (expenseClient.get downNet none 5).2
      = .ok (.asErrorResult 503 (.jstr "Could not connect to the API"))
    ∧ (expenseClient.post downNet none (.jobj [])).2
      = .ok (.asErrorResult 503 (.jstr "Could not connect to API"))
    ∧ (expenseClient.put downNet none (.jobj [])).2
      = .ok (.asErrorResult 503 (.jstr "Could not connect to API")) :=
  network_failure_yields_fixed_503_failure expenseClient downNet none
    sortByDateDesc 1 5 (.jobj []) (fun _ => rfl)

/-! ## C2: the non-success error-message precedence -/

/-- Over an object body whose `details` field, when present, is an array
(the documented error shape of the API), the extraction shared by `fetch`
and `submit` computes exactly the documented precedence. -/
theorem extractErrorMessage_eq_spec (fields : List (String × JsonVal))
    (hdetails : ∀ v, lookupField fields "details" = some v →
      ∃ elems, v = .jarr elems) :
    DatabaseRecordClient.extractErrorMessage (.jobj fields)
      = .ok (specErrorMessage fields) := by
  unfold DatabaseRecordClient.extractErrorMessage specErrorMessage specDetailsMessage
  simp only [jsGetField]
  rcases hd : lookupField fields "detail" with _ | d
  · rcases hds : lookupField fields "details" with _ | v
    · simp [truthy, detailsHasEntries, hds]
    · obtain ⟨elems, rfl⟩ := hdetails v hds
      cases elems with
      | nil => simp [truthy, detailsHasEntries, hds]
      | cons x xs => simp [truthy, detailsHasEntries, hds, jsIndexZero]
  · cases htd : truthyVal d with
    | true => simp [truthy, htd]
    | false =>
      rcases hds : lookupField fields "details" with _ | v
      · simp [truthy, detailsHasEntries, htd, hds]
      · obtain ⟨elems, rfl⟩ := hdetails v hds
        cases elems with
        | nil => simp [truthy, detailsHasEntries, htd, hds]
        | cons x xs => simp [truthy, detailsHasEntries, htd, hds, jsIndexZero]

/-- C2 counterexample: on a 400 response whose object body holds only
`details = ["boom"]`, `fetch` extracts "boom" but `get` answers
"Unknown error". The stated precedence (fall back to the first entry of
`details`) does not apply to `get`, which reads only `detail`. -/
theorem get_ignores_details_array :
    (expenseClient.get
        (constNet ⟨400, some (.jobj [("details", .jarr [.jstr "boom"])])⟩)
        none 5).2
      = .ok (.asErrorResult 400 (.jstr "Unknown error"))
    ∧ (expenseClient.fetch
        (constNet ⟨400, some (.jobj [("details", .jarr [.jstr "boom"])])⟩)
        none sortByDateDesc 1).2
      = .ok (.asErrorResult 400 (.jstr "boom"))
    ∧ "Unknown error" ≠ "boom" :=
  ⟨rfl, rfl, by decide⟩

/-- C2 (amended): for every non-2xx response with an object body of the
documented error shape (a `details` field, when present, is an array),
`fetch`, `post` and `put` return a failure whose message follows the
documented precedence (`detail` when truthy, else the first entry of a
present non-empty `details` array, else the generic fallback) and whose
status field equals the actual HTTP status; `get` also reports the actual
status but derives its message as `detail` unless that is null or absent
(else the generic fallback), never consulting the `details` array. -/
theorem non_success_error_message_precedence {α : Type u}
    (c : DatabaseRecordClient α) (net : Network) (session : Option Session)
    (sortBy : SortBy) (page : Int) (id : Int) (record : α)
    (resp : JSResponse) (fields : List (String × JsonVal))
    (hnet : ∀ r, net r = .success resp)
    (hbody : resp.bodyJson = some (.jobj fields))
    (hdetails : ∀ v, lookupField fields "details" = some v →
      ∃ elems, v = .jarr elems) :
    (resp.status ≠ 200 →
      (c.fetch net session sortBy page).2
        = .ok (.asErrorResult resp.status (specErrorMessage fields))
      ∧ (c.get net session id).2
        = .ok (.asErrorResult resp.status (specGetErrorMessage fields)))
    ∧ (resp.status ≠ 200 → resp.status ≠ 201 →
      (c.post net session record).2
        = .ok (.asErrorResult resp.status (specErrorMessage fields))
      ∧ (c.put net session record).2
        = .ok (.asErrorResult resp.status (specErrorMessage fields))) := by
  have hext := extractErrorMessage_eq_spec fields hdetails
  have hnc : nullishCoalesce (lookupField fields "detail") (.jstr "Unknown error")
      = specGetErrorMessage fields := by
    unfold nullishCoalesce specGetErrorMessage
    rcases lookupField fields "detail" with _ | v
    · rfl
    · cases v <;> rfl
  refine ⟨fun h200 => ⟨?_, ?_⟩, fun h200 h201 => ⟨?_, ?_⟩⟩
  · simp [DatabaseRecordClient.fetch, DatabaseRecordClient.fetchResult,
      hnet, hbody, h200, hext, Except.map]
  · simp [DatabaseRecordClient.get, DatabaseRecordClient.getResult,
      hnet, hbody, h200, jsGetField, hnc]
  · simp [DatabaseRecordClient.post, DatabaseRecordClient.submit,
      DatabaseRecordClient.submitResult, hnet, hbody, h200, h201, hext,
      Except.map]
  · simp [DatabaseRecordClient.put, DatabaseRecordClient.submit,
      DatabaseRecordClient.submitResult, hnet, hbody, h200, h201, hext,
      Except.map]

/-- C2 witness: the amended statement evaluated on the expenses client for a
400 response whose body holds only `details = ["boom"]`. -/
theorem non_success_error_message_precedence_witness :
    (expenseClient.fetch
        (constNet ⟨400, some (.jobj [("details", .jarr [.jstr "boom"])])⟩)
        none sortByDateDesc 1).2
      = .ok (.asErrorResult 400 (.jstr "boom"))
    ∧ (expenseClient.get
        (constNet ⟨400, some (.jobj [("details", .jarr [.jstr "boom"])])⟩)
        none 5).2
      = .ok (.asErrorResult 400 (.jstr "Unknown error"))
    ∧ (expenseClient.post
        (constNet ⟨400, some (.jobj [("details", .jarr [.jstr "boom"])])⟩)
        none (.jobj [])).2
      = .ok (.asErrorResult 400 (.jstr "boom"))
    ∧ (expenseClient.put
        (constNet ⟨400, some (.jobj [("details", .jarr [.jstr "boom"])])⟩)
        none (.jobj [])).2
      = .ok (.asErrorResult 400 (.jstr "boom")) := by
  have h := non_success_error_message_precedence expenseClient
    (constNet ⟨400, some (.jobj [("details", .jarr [.jstr "boom"])])⟩)
    none sortByDateDesc 1 5 (.jobj [])
    ⟨400, some (.jobj [("details", .jarr [.jstr "boom"])])⟩
    [("details", .jarr [.jstr "boom"])]
    (fun _ => rfl) rfl
    (fun v hv => ⟨[.jstr "boom"], by simpa [lookupField] using hv.symm⟩)
  have h1 := h.1 (by decide)
  have h2 := h.2 (by decide) (by decide)
  exact ⟨h1.1, h1.2, h2.1, h2.2⟩

/-! ## C3: exception propagation in the richer client -/

/-- On any object body, the shared error extraction cannot throw: it always
produces some message. -/
theorem extractErrorMessage_jobj_isOk (fields : List (String × JsonVal)) :
    ∃ m, DatabaseRecordClient.extractErrorMessage (.jobj fields) = .ok m := by
  unfold DatabaseRecordClient.extractErrorMessage
  simp only [jsGetField]
  cases htd : truthy (lookupField fields "detail") <;>
    cases hde : detailsHasEntries (lookupField fields "details") <;>
      simp [htd, hde]

/-- C3 counterexample: a 200 response whose body is the JSON object with no
fields makes `fetch` throw a TypeError (the read `json.results.length` on
an undefined `results`), which propagates to the caller instead of being
returned as a result wrapper. -/
theorem fetch_throws_on_missing_results :
    (expenseClient.fetch (constNet ⟨200, some (.jobj [])⟩) none
        sortByDateDesc 1).2
      = .error .typeError :=
  rfl

/-- C3 (amended): for every response whose body parses as a JSON object,
`get`, `post` and `put` return a result wrapper without throwing, and so
does `fetch` whenever the status is not 200 or the body carries an array
`results` field; outside these shapes (a non-JSON body, a null body on a
non-success status, or a 200 fetch body without an array `results`) an
exception propagates to the caller. -/
theorem object_body_responses_return_result_wrappers {α : Type u}
    (c : DatabaseRecordClient α) (net : Network) (session : Option Session)
    (sortBy : SortBy) (page : Int) (id : Int) (record : α)
    (resp : JSResponse) (fields : List (String × JsonVal))
    (hnet : ∀ r, net r = .success resp)
    (hbody : resp.bodyJson = some (.jobj fields)) :
    ((resp.status ≠ 200 ∨ ∃ elems, lookupField fields "results" = some (.jarr elems)) →
      ∃ res, (c.fetch net session sortBy page).2 = .ok res)
    ∧ (∃ res, (c.get net session id).2 = .ok res)
    ∧ (∃ res, (c.post net session record).2 = .ok res)
    ∧ (∃ res, (c.put net session record).2 = .ok res) := by
  obtain ⟨m, hm⟩ := extractErrorMessage_jobj_isOk fields
  refine ⟨?_, ?_, ?_, ?_⟩
  · rintro (h200 | ⟨elems, hres⟩)
    · simp [DatabaseRecordClient.fetch,
        DatabaseRecordClient.fetchResult, hnet, hbody, h200, hm, Except.map]
    · by_cases hs : resp.status = 200
      · simp [DatabaseRecordClient.fetch,
          DatabaseRecordClient.fetchResult, hnet, hbody, hs, jsGetField,
          hres, jsElements]
      · simp [DatabaseRecordClient.fetch,
          DatabaseRecordClient.fetchResult, hnet, hbody, hs, hm, Except.map]
  · by_cases hs : resp.status = 200 <;>
      simp [DatabaseRecordClient.get,
        DatabaseRecordClient.getResult, hnet, hbody, hs, jsGetField]
  · by_cases h1 : resp.status = 200 <;> by_cases h2 : resp.status = 201 <;>
      simp [DatabaseRecordClient.post, DatabaseRecordClient.submit,
        DatabaseRecordClient.submitResult, hnet, hbody, h1, h2, hm, Except.map]
  · by_cases h1 : resp.status = 200 <;> by_cases h2 : resp.status = 201 <;>
      simp [DatabaseRecordClient.put, DatabaseRecordClient.submit,
        DatabaseRecordClient.submitResult, hnet, hbody, h1, h2, hm, Except.map]

/-- C3 witness: the amended statement evaluated on the expenses client for a
200 response carrying a one-record results array. -/
theorem object_body_responses_return_result_wrappers_witness :
    (∃ res, (expenseClient.fetch
        (constNet ⟨200, some (.jobj [("results", .jarr [.jobj [("id", .jnum 1)]]),
          ("previous", .jstr "p"), ("next", .jnull)])⟩)
        none sortByDateDesc 1).2 = .ok res)
    ∧ (∃ res, (expenseClient.get
        (constNet ⟨200, some (.jobj [("results", .jarr [.jobj [("id", .jnum 1)]]),
          ("previous", .jstr "p"), ("next", .jnull)])⟩)
        none 5).2 = .ok res)
    ∧ (∃ res, (expenseClient.post
        (constNet ⟨200, some (.jobj [("results", .jarr [.jobj [("id", .jnum 1)]]),
          ("previous", .jstr "p"), ("next", .jnull)])⟩)
        none (.jobj [])).2 = .ok res)
    ∧ (∃ res, (expenseClient.put
        (constNet ⟨200, some (.jobj [("results", .jarr [.jobj [("id", .jnum 1)]]),
          ("previous", .jstr "p"), ("next", .jnull)])⟩)
        none (.jobj [])).2 = .ok res) := by
  have h := object_body_responses_return_result_wrappers expenseClient
    (constNet ⟨200, some (.jobj [("results", .jarr [.jobj [("id", .jnum 1)]]),
      ("previous", .jstr "p"), ("next", .jnull)])⟩)
    none sortByDateDesc 1 5 (.jobj [])
    ⟨200, some (.jobj [("results", .jarr [.jobj [("id", .jnum 1)]]),
      ("previous", .jstr "p"), ("next", .jnull)])⟩
    [("results", .jarr [.jobj [("id", .jnum 1)]]),
      ("previous", .jstr "p"), ("next", .jnull)]
    (fun _ => rfl) rfl
  exact ⟨h.1 (Or.inr ⟨[.jobj [("id", .jnum 1)]], rfl⟩), h.2.1, h.2.2.1, h.2.2.2⟩

/-! ## C4: the simpler client and its sentinels -/

/-- C4 counterexample: `APIClient` wraps no call in try/catch, so a
network-level failure propagates as an exception from every operation
instead of producing the null or empty sentinel; and on a successful
`post` the raw response body is returned, not the parsed record (the
parse of the concrete client maps every value to null, yet the body comes
back unchanged). -/
theorem apiclient_network_failure_throws :
    (simpleClient.fetch downNet none).2 = .error .networkError
    ∧ (simpleClient.get downNet none 5).2 = .error .networkError
    ∧ (simpleClient.post downNet none (.jobj [])).2 = .error .networkError
    ∧ (simpleClient.put downNet none (.jobj [])).2 = .error .networkError
    ∧ (simpleClient.post (constNet ⟨201, some (.jobj [("id", .jnum 1)])⟩)
        none (.jobj [])).2 = .ok (some (.jobj [("id", .jnum 1)]))
    ∧ simpleClient.parse (.jobj [("id", .jnum 1)]) ≠ .jobj [("id", .jnum 1)] :=
  ⟨rfl, rfl, rfl, rfl, rfl, fun h => JsonVal.noConfusion h⟩

/-- Arrays are always truthy in JavaScript, including the empty array. -/
@[simp] theorem truthyVal_jarr (elems : List JsonVal) :
    truthyVal (.jarr elems) = true := rfl

/-- Objects are always truthy in JavaScript. -/
@[simp] theorem truthyVal_jobj (fields : List (String × JsonVal)) :
    truthyVal (.jobj fields) = true := rfl

/-- C4 (amended): every `APIClient` operation returns the parsed value(s)
(`fetch` and `get`) or the raw response body (`post` and `put`) on success,
and a null or empty-list sentinel on a non-OK status or a falsy body; a
network-level failure is not caught and propagates as an exception, as does
a body that does not parse as JSON. -/
theorem apiclient_failure_and_success_modes {α : Type u}
    (c : APIClient α) (net : Network) (session : Option Session)
    (id : Int) (record : α) (resp : JSResponse) (data : JsonVal)
    (fields : List (String × JsonVal)) (elems : List JsonVal) :
    ((∀ r, net r = .failure) →
      (c.fetch net session).2 = .error .networkError
      ∧ (c.get net session id).2 = .error .networkError
      ∧ (c.post net session record).2 = .error .networkError
      ∧ (c.put net session record).2 = .error .networkError)
    ∧ ((∀ r, net r = .success resp) → resp.ok = false →
      (c.fetch net session).2 = .ok []
      ∧ (c.get net session id).2 = .ok none
      ∧ (c.post net session record).2 = .ok none
      ∧ (c.put net session record).2 = .ok none)
    ∧ ((∀ r, net r = .success resp) → resp.ok = true →
      resp.bodyJson = some data → truthyVal data = true →
      (c.get net session id).2 = .ok (some (c.parse data))
      ∧ (c.post net session record).2 = .ok (some data)
      ∧ (c.put net session record).2 = .ok (some data))
    ∧ ((∀ r, net r = .success resp) → resp.ok = true →
      resp.bodyJson = some (.jobj fields) →
      lookupField fields "detail" = none →
      lookupField fields "results" = some (.jarr elems) →
      (c.fetch net session).2 = .ok (elems.map c.parse)) := by
  refine ⟨fun hdown => ⟨?_, ?_, ?_, ?_⟩,
    fun hnet hok => ⟨?_, ?_, ?_, ?_⟩,
    fun hnet hok hbody htruthy => ⟨?_, ?_, ?_⟩,
    fun hnet hok hbody hdet hres => ?_⟩ <;>
  simp [APIClient.fetch, APIClient.get, APIClient.post, APIClient.put,
    APIClient.fetchResult, APIClient.getResult, APIClient.writeResult,
    jsGetField, jsElements, truthy, *]

/-- C4 witness: the amended statement evaluated on the projects client,
once under the downed network and once for a 200 response whose object
body carries a one-record results array and no detail field. -/
theorem apiclient_failure_and_success_modes_witness :
    (simpleClient.fetch downNet none).2 = .error .networkError
    ∧ (simpleClient.get
        (constNet ⟨200, some (.jobj [("results", .jarr [.jobj []])])⟩)
        none 5).2 = .ok (some .jnull)
    ∧ (simpleClient.post
        (constNet ⟨200, some (.jobj [("results", .jarr [.jobj []])])⟩)
        none (.jobj [])).2 = .ok (some (.jobj [("results", .jarr [.jobj []])]))
    ∧ (simpleClient.fetch
        (constNet ⟨200, some (.jobj [("results", .jarr [.jobj []])])⟩)
        none).2 = .ok [.jnull] := by
  have hdown := apiclient_failure_and_success_modes simpleClient downNet none
    5 (.jobj []) ⟨200, some (.jobj [("results", .jarr [.jobj []])])⟩
    (.jobj [("results", .jarr [.jobj []])]) [("results", .jarr [.jobj []])]
    [.jobj []]
  have hup := apiclient_failure_and_success_modes simpleClient
    (constNet ⟨200, some (.jobj [("results", .jarr [.jobj []])])⟩) none
    5 (.jobj []) ⟨200, some (.jobj [("results", .jarr [.jobj []])])⟩
    (.jobj [("results", .jarr [.jobj []])]) [("results", .jarr [.jobj []])]
    [.jobj []]
  have h3 := hup.2.2.1 (fun _ => rfl) rfl rfl rfl
  have h4 := hup.2.2.2 (fun _ => rfl) rfl rfl rfl rfl
  exact ⟨(hdown.1 (fun _ => rfl)).1, h3.1, h3.2.1, h4⟩

/-! ## C5: successful fetch, records and pagination flags -/

/-- C5: for every successful `fetch` (200 status, object body with an array
`results` field), the success result carries the actual status, the parse
of each `results` entry in order, the requested page, and pagination flags
that are true exactly when the `previous` respectively `next` field is
present and non-null; in particular, with `previous` null and `next` a URL
string, `hasPreviousPage` is false and `hasNextPage` is true. -/
theorem fetch_success_pagination_and_records {α : Type u}
    (c : DatabaseRecordClient α) (net : Network) (session : Option Session)
    (sortBy : SortBy) (page : Int) (resp : JSResponse)
    (fields : List (String × JsonVal)) (elems : List JsonVal)
    (hnet : ∀ r, net r = .success resp)
    (hstat : resp.status = 200)
    (hbody : resp.bodyJson = some (.jobj fields))
    (hres : lookupField fields "results" = some (.jarr elems)) :
    (c.fetch net session sortBy page).2
      = .ok (.asSuccessResult 200 (elems.map c.parse) page
          (looseNeqNull (lookupField fields "previous"))
          (looseNeqNull (lookupField fields "next")))
    ∧ (lookupField fields "previous" = some .jnull →
        ∀ u, lookupField fields "next" = some (.jstr u) →
          (c.fetch net session sortBy page).2
            = .ok (.asSuccessResult 200 (elems.map c.parse) page false true)) := by
  constructor
  · simp [DatabaseRecordClient.fetch, DatabaseRecordClient.fetchResult,
      hnet, hstat, hbody, jsGetField, hres, jsElements]
  · intro hprev u hnext
    simp [DatabaseRecordClient.fetch, DatabaseRecordClient.fetchResult,
      hnet, hstat, hbody, jsGetField, hres, jsElements, hprev, hnext,
      looseNeqNull]

/-- C5 witness: the worked example of the spec, with the roles of the link
fields exercising both flag values: sorting by date descending, page 2,
against a response with one result, a previous link, and a null next link,
yields one record, page 2, hasPreviousPage true, hasNextPage false. -/
theorem fetch_success_pagination_and_records_witness :
    (expenseClient.fetch
        (constNet ⟨200, some (.jobj [("results", .jarr [.jobj [("id", .jnum 1)]]),
          ("previous", .jstr "prevUrl"), ("next", .jnull)])⟩)
        none sortByDateDesc 2).2
      = .ok (.asSuccessResult 200 [.jobj [("id", .jnum 1)]] 2 true false) :=
  (fetch_success_pagination_and_records expenseClient
    (constNet ⟨200, some (.jobj [("results", .jarr [.jobj [("id", .jnum 1)]]),
      ("previous", .jstr "prevUrl"), ("next", .jnull)])⟩)
    none sortByDateDesc 2
    ⟨200, some (.jobj [("results", .jarr [.jobj [("id", .jnum 1)]]),
      ("previous", .jstr "prevUrl"), ("next", .jnull)])⟩
    [("results", .jarr [.jobj [("id", .jnum 1)]]),
      ("previous", .jstr "prevUrl"), ("next", .jnull)]
    [.jobj [("id", .jnum 1)]]
    (fun _ => rfl) rfl rfl rfl).1

/-! ## C6: the request issued by put -/

/-- C6: for every record, `put` issues exactly one HTTP request, whose
method is PUT, whose URL is the configured domain, then the endpoint, then
the record id, then a trailing slash, and whose body is the JSON
serialization of the record. -/
theorem put_issues_single_put_request {α : Type u}
    (c : DatabaseRecordClient α) (net : Network) (session : Option Session)
    (record : α) :
    (c.put net session record).1
      = [{ method := "PUT"
           url := c.domain ++ c.getEndpoint ++ toString (c.recordId record) ++ "/"
           headers := [("Content-Type", "application/json"),
                       ("Authorization", "Token " ++ (getAccessToken session).1)]
           body := some (c.stringify record)
           cache := none }] :=
  rfl

/-! ## C7: missing session -/

/-- C7: with no session, `getAccessToken` logs "Could not get session" and
returns the empty string, and the subsequent request of each operation is
still issued, carrying the Authorization header value "Token " followed by
the empty token. -/
theorem missing_session_empty_token_and_header {α : Type u}
    (c : DatabaseRecordClient α) (net : Network) (sortBy : SortBy)
    (page : Int) (id : Int) (record : α) :
    getAccessToken none = ("", ["Could not get session"])
    ∧ (c.fetch net none sortBy page).1 = [c.fetchRequest none sortBy page]
    ∧ (c.fetchRequest none sortBy page).headers = [("Authorization", "Token ")]
    ∧ (c.getRequest none id).headers = [("Authorization", "Token ")]
    ∧ (c.submitRequest none record (c.domain ++ c.getEndpoint) "POST").headers
        = [("Content-Type", "application/json"), ("Authorization", "Token ")]
    ∧ (c.deleteRequest none id).headers = [("Authorization", "Token ")] :=
  ⟨rfl, rfl, rfl, rfl, rfl, rfl⟩

/-! ## C8: the fetch query string -/

/-- C8: for every sort order and page, `fetch` issues exactly one GET whose
URL is the domain plus the endpoint followed by a query string holding
exactly the three parameters sortField (the sort field name), sortDir (the
serialized direction) and page (the page number), in that order, with the
token in the Authorization header; omitting the page issues the same
request with page 1. -/
theorem fetch_builds_three_parameter_query {α : Type u}
    (c : DatabaseRecordClient α) (net : Network) (session : Option Session)
    (sortBy : SortBy) (page : Int) :
    (c.fetch net session sortBy page).1 = [c.fetchRequest session sortBy page]
    ∧ (c.fetchRequest session sortBy page).method = "GET"
    ∧ (c.fetchRequest session sortBy page).url
        = c.domain ++ c.getEndpoint ++ "?" ++ urlSearchParamsString
            [("sortField", sortBy.field),
             ("sortDir", sortBy.getDirectionAsString),
             ("page", toString page)]
    ∧ (c.fetchRequest session sortBy page).headers
        = [("Authorization", "Token " ++ (getAccessToken session).1)]
    ∧ c.fetchNoPage net session sortBy = c.fetch net session sortBy 1 :=
  ⟨rfl, rfl, rfl, rfl, rfl⟩

/-! ## C9: delete -/

/-- C9: for every id, `delete` issues exactly one authenticated DELETE to
the domain plus endpoint plus id plus a trailing slash; its outcome is the
raw response whenever a response arrived, whatever its status, and the null
sentinel when the promise rejected. The outcome type is a bare optional
response: no result wrapper is ever built, and no code path of the
operation can throw (the single fallible call sits inside the try/catch). -/
theorem delete_returns_raw_response_or_null {α : Type u}
    (c : DatabaseRecordClient α) (net : Network) (session : Option Session)
    (id : Int) :
    (c.delete net session id).1
      = [{ method := "DELETE"
           url := c.domain ++ c.getEndpoint ++ toString id ++ "/"
           headers := [("Authorization", "Token " ++ (getAccessToken session).1)]
           body := none
           cache := none }]
    ∧ (net (c.deleteRequest session id) = .failure →
        (c.delete net session id).2 = none)
    ∧ (∀ resp, net (c.deleteRequest session id) = .success resp →
        (c.delete net session id).2 = some resp) :=
  ⟨rfl,
   fun h => by simp [DatabaseRecordClient.delete,
     DatabaseRecordClient.responseOrNull, h],
   fun resp h => by simp [DatabaseRecordClient.delete,
     DatabaseRecordClient.responseOrNull, h]⟩

/-- C9 witness: the statement evaluated on the expenses client, once under
the downed network and once for a completed 204 response. -/
theorem delete_returns_raw_response_or_null_witness :
    (expenseClient.delete downNet none 5).2 = none
    ∧ (expenseClient.delete (constNet ⟨204, none⟩) none 5).2 = some ⟨204, none⟩ :=
  ⟨(delete_returns_raw_response_or_null expenseClient downNet none 5).2.1 rfl,
   (delete_returns_raw_response_or_null expenseClient
     (constNet ⟨204, none⟩) none 5).2.2 ⟨204, none⟩ rfl⟩

/-! ## C10: truthy detail short-circuits APIClient.fetch -/

/-- C10: `APIClient.fetch` returns the empty list whenever the response body
is an object with a truthy `detail` field, even on an OK status and even
when the body also carries a valid `results` array: the `detail` check runs
before `results` is ever consulted. -/
theorem apiclient_fetch_empty_on_truthy_detail {α : Type u}
    (c : APIClient α) (net : Network) (session : Option Session)
    (resp : JSResponse) (fields : List (String × JsonVal)) (d : JsonVal)
    (hnet : ∀ r, net r = .success resp)
    (hok : resp.ok = true)
    (hbody : resp.bodyJson = some (.jobj fields))
    (hdet : lookupField fields "detail" = some d)
    (htruthy : truthyVal d = true) :
    (c.fetch net session).2 = .ok [] := by
  simp [APIClient.fetch, APIClient.fetchResult, hnet, hok, hbody,
    jsGetField, hdet, truthy, htruthy]

/-- C10 witness: a 200 response whose object body carries both a truthy
detail and a one-record results array still yields no records. -/
theorem apiclient_fetch_empty_on_truthy_detail_witness :
    (simpleClient.fetch
        (constNet ⟨200, some (.jobj [("detail", .jstr "forbidden"),
          ("results", .jarr [.jobj [("id", .jnum 1)]])])⟩)
        none).2 = .ok [] :=
  apiclient_fetch_empty_on_truthy_detail simpleClient
    (constNet ⟨200, some (.jobj [("detail", .jstr "forbidden"),
      ("results", .jarr [.jobj [("id", .jnum 1)]])])⟩)
    none
    ⟨200, some (.jobj [("detail", .jstr "forbidden"),
      ("results", .jarr [.jobj [("id", .jnum 1)]])])⟩
    [("detail", .jstr "forbidden"),
      ("results", .jarr [.jobj [("id", .jnum 1)]])]
    (.jstr "forbidden")
    (fun _ => rfl) rfl rfl rfl rfl
